import Mathlib

/-!
Shallow embedding of the image-generation worker of the seed-alchemy
repository and of the helpers it uses.

Sources embedded here:
* `src/simple_diffusion/utils.py` — `next_image_id` (lines 70-76) and
  `retry_on_failure` (lines 78-91);
* `src/simple_diffusion/main.py` — class `GenerateThread` (lines 923-1078):
  `run`, `run_`, `generate_callback`, `update_task_progress`,
  `compute_pipeline_steps`, `compute_total_steps`, and the inner
  `io_operation` of `run_`.

Modelling conventions:
* Python exceptions are values of the `Err` type; a computation that can
  raise returns its already-emitted events together with `Option Err`
  (events emitted before a raise are kept, as Qt signals are).
* Qt signal emissions are recorded as an ordered `List Event` trace.
* The directory of the active collection is a `List String` of file names;
  saving an image appends its file name.  This in-memory file system never
  fails, so the `retry_on_failure` wrapper around the write returns the
  first attempt's result (lemma `retry_first_success`).
* The external sampling pipeline (`pipeline(self.req)` — the diffusers
  library) invokes `generate_callback` once per denoising step with
  step indices `0, 1, …`; the number of steps it actually performs is the
  parameter `samplingSteps`.
* The mutable `self.cancel` flag, set asynchronously by the UI, is
  modelled as the history `cancelAt : Nat → Bool` giving the flag's value
  at the moment the step-`i` callback polls it.
* Python float arithmetic on `img_strength` is modelled with `Rat`;
  `int(x)` truncation toward zero is `pyInt`.  The `task_progress`
  signal's payload `(step+1) * 100 / steps` is kept as the exact `Rat`
  (PySide's `Signal(int)` truncates it; truncation is monotone, so the
  monotonicity and boundedness questions are unaffected).
-/

namespace SeedAlchemy

/-- Python `int(x)` for a rational `x`: truncation toward zero. -/
def pyInt (q : Rat) : Int :=
  if q < 0 then -⌊-q⌋ else ⌊q⌋

/-- Modelled from the spec: the `configuration` module is not under `src/`.
Spec §3/§9: the conditioning modes form a tagged union of two variants,
plain image-to-image strength blending (`Img2ImgCondition`) and
model-guided control conditioning (`ControlNetCondition`). -/
inductive Condition where
  | img2imgCondition
  | controlNetCondition
deriving DecidableEq, Repr

/-- Exceptions relevant to the worker.
`cancelThread` is `CancelThreadException` (main.py:923).
`unboundLocal` is Python's `UnboundLocalError`, raised at main.py:966 when
`run_`'s `if/elif` chain (lines 958-964) left `pipeline_type` unassigned.
`configurationError` is the spec's §7 taxonomy name `ConfigurationError`;
no class of that name exists anywhere in the code — the constructor is
present only so that the spec's claim about it can be stated and compared
with what the code raises. -/
inductive Err where
  | cancelThread
  | unboundLocal
  | configurationError
deriving DecidableEq, Repr

/-- The Qt signals of `GenerateThread` (main.py:927-930), as trace events.
`taskProgress` carries the exact rational payload of main.py:1059-1060. -/
inductive Event where
  | taskProgress (amount : Rat)
  | imagePreview
  | imageComplete (path : String)
  | taskComplete
deriving DecidableEq, Repr

/-- Boolean recognisers for the event constructors, used for counting. -/
def isTaskProgress : Event → Bool
  | Event.taskProgress _ => true
  | _ => false

def isImageComplete : Event → Bool
  | Event.imageComplete _ => true
  | _ => false

def isTaskComplete : Event → Bool
  | Event.taskComplete => true
  | _ => false

/-- The fields of `ImageMetadata` (module `image_metadata`, not under
`src/`) that the worker logic of main.py reads; the remaining fields
(prompt, seed, dimensions, …) are only passed to external collaborators
and play no part in the claims. -/
structure ImageMetadata where
  num_inference_steps : Nat
  img_strength : Rat
  condition : String
  control_net_model : String
  upscale_enabled : Bool
  face_enabled : Bool
deriving DecidableEq, Repr

/-- `GenerateRequest` (module `pipelines`, not under `src/`): the request
fields the worker reads (main.py:938-941). -/
structure GenerateRequest where
  image_metadata : ImageMetadata
  num_images_per_prompt : Nat
deriving DecidableEq, Repr

/-- The per-run state of `GenerateThread.__init__` (main.py:932-941):
the request type, the active collection and the request itself.
`conditions` stands for the module-level `configuration.conditions`
mapping (modelled from the spec, the `configuration` module being outside
`src/`); the mutable `self.cancel` flag is passed to `run` as a history,
see the module docstring. -/
structure GenerateThread where
  type : String
  conditions : String → Option Condition
  collection : String
  req : GenerateRequest

/-! ### utils.py -/

/-- Value of a list of decimal digit characters. -/
def digitsVal (cs : List Char) : Nat :=
  cs.foldl (fun a c => a * 10 + (c.toNat - 48)) 0

/-- Does the first list start the second one?  (Used for the unanchored
`re.match` semantics below.) -/
def listStartsWith : List Char → List Char → Bool
  | [], _ => true
  | _ :: _, [] => false
  | a :: as, b :: bs => a = b && listStartsWith as bs

/-- `re.match(r'(\d+)\.png', image_file)` of utils.py:73.  `re.match`
anchors only at the start of the string: a greedy run of leading digits
must be followed by the literal `.png`, and anything may follow.  Returns
the value of the digit group on success. -/
def matchIdPng (s : String) : Option Nat :=
  let cs := s.toList
  let digits := cs.takeWhile Char.isDigit
  let rest := cs.dropWhile Char.isDigit
  if !digits.isEmpty && listStartsWith ['.', 'p', 'n', 'g'] rest then
    some (digitsVal digits)
  else
    none

/-- Modelled from the spec: the claim's reading of the pattern, a filename
that matches `<digits>.png` in full (nothing after the extension). -/
def matchIdPngFull (s : String) : Option Nat :=
  let cs := s.toList
  let digits := cs.takeWhile Char.isDigit
  let rest := cs.dropWhile Char.isDigit
  if !digits.isEmpty && rest = ['.', 'p', 'n', 'g'] then
    some (digitsVal digits)
  else
    none

/-- `utils.next_image_id` (utils.py:70-76): scan the directory, keep the
maximum id among matching file names (0 if none), return it plus one. -/
def next_image_id (dir : List String) : Nat :=
  (dir.foldl (fun id f =>
    match matchIdPng f with
    | some n => max id n
    | none => id) 0) + 1

/-- Modelled from the spec: `next_image_id` as the claim states it, with
the pattern required to match the whole file name. -/
def next_image_id_spec (dir : List String) : Nat :=
  (dir.foldl (fun id f =>
    match matchIdPngFull f with
    | some n => max id n
    | none => id) 0) + 1

/-- Python `'\x7b:05d\x7d'.format(n)` (main.py:1035): decimal, left-padded
with zeros to width 5. -/
def zero_pad5 (n : Nat) : String :=
  let s := toString n
  String.mk (List.replicate (5 - s.length) '0') ++ s

/-- Loop body of `utils.retry_on_failure` (utils.py:81-91).
`remaining = max_retries - current_retry` counts the iterations the
`while current_retry < max_retries` guard still allows; `operation k` is
the outcome of the (k+1)-st call of the stateful Python callable.  On
failure the retry counter advances and, when it reaches `max_retries`,
the exception is re-raised; `time.sleep(delay)` (utils.py:90-91) only
delays and is dropped from this timeless model.  Falling out of the loop
returns Python's implicit `None`, i.e. `Except.ok none`. -/
def retryGo {ε α : Type} (operation : Nat → Except ε α) :
    Nat → Nat → Except ε (Option α)
  | _, 0 => Except.ok none
  | current_retry, remaining + 1 =>
    match operation current_retry with
    | Except.ok r => Except.ok (some r)
    | Except.error e =>
      if remaining = 0 then Except.error e
      else retryGo operation (current_retry + 1) remaining

/-- `utils.retry_on_failure` (utils.py:78-91), default `max_retries=10`.
`max_retries` is an `Int` as in Python; a non-positive budget makes the
`while` guard false at once (`Int.toNat` of a non-positive is 0). -/
def retry_on_failure {ε α : Type} (operation : Nat → Except ε α)
    (max_retries : Int := 10) : Except ε (Option α) :=
  retryGo operation 0 max_retries.toNat

/-! ### GenerateThread -/

/-- `GenerateThread.compute_pipeline_steps` (main.py:1062-1069). -/
def GenerateThread.compute_pipeline_steps (t : GenerateThread) : Int :=
  let steps : Int := t.req.image_metadata.num_inference_steps
  if t.type = "img2img" then
    match t.conditions t.req.image_metadata.condition with
    | some Condition.img2imgCondition =>
      pyInt ((t.req.image_metadata.num_inference_steps : Rat) *
        t.req.image_metadata.img_strength)
    | _ => steps
  else
    steps

/-- `GenerateThread.compute_total_steps` (main.py:1071-1078). -/
def GenerateThread.compute_total_steps (t : GenerateThread) : Int :=
  let steps_per_image : Int :=
    1 + (if t.req.image_metadata.upscale_enabled then 1 else 0)
      + (if t.req.image_metadata.face_enabled then 1 else 0)
  t.compute_pipeline_steps + (t.req.num_images_per_prompt : Int) * steps_per_image

/-- `GenerateThread.update_task_progress` (main.py:1057-1060): emit
`(step+1) * 100 / total_steps` on the `task_progress` signal. -/
def GenerateThread.update_task_progress (t : GenerateThread) (step : Int) : Event :=
  let steps := t.compute_total_steps
  Event.taskProgress (((step : Rat) + 1) * 100 / (steps : Rat))

/-- `GenerateThread.generate_callback` (main.py:1048-1055): raise
`CancelThreadException` when the cancel flag is set; otherwise emit the
progress update and (after the external latent decode, main.py:1053-1054)
the preview image. -/
def GenerateThread.generate_callback (t : GenerateThread) (cancel : Bool)
    (step : Int) : Except Err (List Event) :=
  if cancel then Except.error Err.cancelThread
  else Except.ok [t.update_task_progress step, Event.imagePreview]

/-- The external sampling loop (`images = pipeline(self.req)`,
main.py:998): the diffusers pipeline invokes `generate_callback` once per
denoising step with indices `step, step+1, …`, `fuel` steps in all.
Events emitted before a raise survive it; the raise aborts the loop. -/
def pipeline_sampling (t : GenerateThread) (cancelAt : Nat → Bool) :
    Nat → Nat → List Event × Option Err
  | _, 0 => ([], none)
  | step, fuel + 1 =>
    match t.generate_callback (cancelAt step) (step : Int) with
    | Except.error e => ([], some e)
    | Except.ok evs =>
      let (rest, err) := pipeline_sampling t cancelAt (step + 1) fuel
      (evs ++ rest, err)

/-- The inner `io_operation` of `run_` (main.py:1033-1039): allocate the
next id by scanning the collection directory, save the image there under
the 5-digit-padded name, and return the collection-relative path.  The
save appends the file name to the directory model. -/
def io_operation (collection : String) (dir : List String) :
    List String × String :=
  let nid := next_image_id dir
  let fname := zero_pad5 nid ++ ".png"
  let output_path := collection ++ "/" ++ fname
  (dir ++ [fname], output_path)

/-- The per-image tail of `run_`'s loop over `images` (main.py:1001-1046).
Per image: the ESRGAN upscale runs when `upscale_enabled` (main.py:1003-
1010, an external image transform with no signal), then a progress update
and `step += 1`; the GFPGAN face restore runs when `face_enabled`
(main.py:1016-1023, likewise external and silent), then a progress update
and `step += 1`; then the write — `utils.retry_on_failure(io_operation)`
(main.py:1041), which in this never-failing file-system model returns the
first attempt's result (lemma `retry_first_success`) — then a progress
update, `step += 1`, and the `image_complete` signal. -/
def GenerateThread.post_loop (t : GenerateThread) :
    Int → List String → Nat → List Event × List String
  | _, dir, 0 => ([], dir)
  | step, dir, n + 1 =>
    let e1 := t.update_task_progress step
    let e2 := t.update_task_progress (step + 1)
    let (dir2, path) := io_operation t.collection dir
    let e3 := t.update_task_progress (step + 2)
    let (rest, dirFinal) := t.post_loop (step + 3) dir2 n
    (e1 :: e2 :: e3 :: Event.imageComplete path :: rest, dirFinal)

/-- The pipeline classes of main.py:959-964 (their bodies live in the
external `pipelines` module). -/
inductive PipelineType where
  | txt2img
  | img2img
  | controlNet
deriving DecidableEq, Repr

/-- The `if/elif` chain of `run_` (main.py:958-964) plus the use of
`pipeline_type` at main.py:966: a request type other than `txt2img` or
`img2img` leaves `pipeline_type` unassigned, so line 966 raises
`UnboundLocalError`. -/
def GenerateThread.resolve_pipeline_type (t : GenerateThread) :
    Except Err PipelineType :=
  if t.type = "txt2img" then Except.ok PipelineType.txt2img
  else if t.type = "img2img" then
    if t.req.image_metadata.control_net_model ≠ "" then
      Except.ok PipelineType.controlNet
    else
      Except.ok PipelineType.img2img
  else
    Except.error Err.unboundLocal

/-- `GenerateThread.run_` (main.py:954-1046).  Resolve the pipeline type
(raising before any event when unresolvable); the source-image load,
scheduler swap, generator seeding and prompt weighting (main.py:970-995)
are external collaborator calls with no signals and no claim-relevant
state; the external sampling loop fires the per-step callbacks; on its
normal return, `step` restarts at `compute_pipeline_steps` (main.py:1000)
and the per-image post-processing/write loop runs.  Returns the emitted
events, the final directory contents and the raised exception, if any. -/
def GenerateThread.run_ (t : GenerateThread) (cancelAt : Nat → Bool)
    (samplingSteps : Nat) (dir : List String) :
    List Event × List String × Option Err :=
  match t.resolve_pipeline_type with
  | Except.error e => ([], dir, some e)
  | Except.ok _ =>
    let (evs, err) := pipeline_sampling t cancelAt 0 samplingSteps
    match err with
    | some e => (evs, dir, some e)
    | none =>
      let (evs2, dir2) := t.post_loop t.compute_pipeline_steps dir
        t.req.num_images_per_prompt
      (evs ++ evs2, dir2, none)

/-- `GenerateThread.run` (main.py:943-952): run `run_`, swallow
`CancelThreadException` silently and any other `Exception` after logging
(both are discarded here), then always emit `task_complete` and trigger a
garbage pass.  Returns the full event trace and the final directory. -/
def GenerateThread.run (t : GenerateThread) (cancelAt : Nat → Bool)
    (samplingSteps : Nat) (dir : List String) : List Event × List String :=
  let (evs, dir2, _err) := t.run_ cancelAt samplingSteps dir
  (evs ++ [Event.taskComplete], dir2)

/-- The progress payloads of a trace, in emission order. -/
def progressAmounts (evs : List Event) : List Rat :=
  evs.filterMap (fun e =>
    match e with
    | Event.taskProgress a => some a
    | _ => none)

/-! ### Concrete instances used by counterexamples and witnesses -/

/-- A minimal txt2img request: one inference step, one image, upscaling
and face restoration both disabled. -/
def md0 : ImageMetadata :=
  { num_inference_steps := 1
    img_strength := 1
    condition := ""
    control_net_model := ""
    upscale_enabled := false
    face_enabled := false }

/-- A txt2img worker for `md0` over an empty conditions table. -/
def t0 : GenerateThread :=
  { type := "txt2img"
    conditions := fun _ => none
    collection := "outputs"
    req := { image_metadata := md0, num_images_per_prompt := 1 } }

/-- A worker whose request type is neither `txt2img` nor `img2img`. -/
def tBad : GenerateThread :=
  { t0 with type := "inpaint" }

/-! ### Helper lemmas -/

/-- In the in-memory file-system model the write never fails, so the
`retry_on_failure` wrapper of main.py:1041 returns the first attempt's
result: `post_loop` may therefore use `io_operation` directly. -/
theorem retry_first_success {ε α : Type} (x : α) :
    retry_on_failure (ε := ε) (fun _ => Except.ok x) 10 = Except.ok (some x) := rfl

/-- The sampling phase emits only progress and preview events: any
predicate false on those counts zero occurrences. -/
theorem pipeline_sampling_countP (t : GenerateThread) (cancelAt : Nat → Bool)
    (p : Event → Bool) (hp1 : ∀ a, p (Event.taskProgress a) = false)
    (hp2 : p Event.imagePreview = false) :
    ∀ fuel step, ((pipeline_sampling t cancelAt step fuel).1.countP p) = 0 := by
  intro fuel
  induction fuel with
  | zero => intro step; rfl
  | succ n ih =>
    intro step
    simp only [pipeline_sampling, GenerateThread.generate_callback,
      GenerateThread.update_task_progress]
    by_cases hc : cancelAt step
    · simp [hc]
    · simp [hc, List.countP_cons, List.countP_append, hp1, hp2, ih]

/-- The post-processing loop's events are, per image, three progress
updates followed by one `image_complete`: a predicate false on progress
events and constantly `b` on `image_complete` events counts `n * b.toNat`
occurrences over `n` images. -/
theorem post_loop_countP (t : GenerateThread) (p : Event → Bool) (b : Bool)
    (hp : ∀ a, p (Event.taskProgress a) = false)
    (hb : ∀ path, p (Event.imageComplete path) = b) :
    ∀ n step dir, ((t.post_loop step dir n).1.countP p) = n * b.toNat := by
  intro n
  induction n with
  | zero => intro step dir; simp [GenerateThread.post_loop]
  | succ m ih =>
    intro step dir
    simp only [GenerateThread.post_loop, io_operation]
    simp only [List.countP_cons, hp, hb, ih, GenerateThread.update_task_progress]
    cases b <;> simp

/-- The post-processing loop emits exactly three progress updates per
image. -/
theorem post_loop_count_progress (t : GenerateThread) :
    ∀ n step dir, ((t.post_loop step dir n).1.countP isTaskProgress) = 3 * n := by
  intro n
  induction n with
  | zero => intro step dir; rfl
  | succ m ih =>
    intro step dir
    simp only [GenerateThread.post_loop, io_operation]
    simp only [List.countP_cons, ih, GenerateThread.update_task_progress,
      isTaskProgress]
    simp
    omega

/-- Each image written by the post-processing loop appends one file to
the collection directory. -/
theorem post_loop_dir_length (t : GenerateThread) :
    ∀ n step dir, ((t.post_loop step dir n).2.length) = dir.length + n := by
  intro n
  induction n with
  | zero => intro step dir; rfl
  | succ m ih =>
    intro step dir
    simp only [GenerateThread.post_loop, io_operation]
    simp [ih]
    omega

/-- The sampling phase consults the cancellation flag only at the steps
it actually performs: two flag histories agreeing on those steps drive
the phase to identical traces and outcomes. -/
theorem pipeline_sampling_congr (t : GenerateThread) (h₁ h₂ : Nat → Bool) :
    ∀ fuel step, (∀ i, step ≤ i → i < step + fuel → h₁ i = h₂ i) →
      pipeline_sampling t h₁ step fuel = pipeline_sampling t h₂ step fuel := by
  intro fuel
  induction fuel with
  | zero => intro step _; rfl
  | succ n ih =>
    intro step hag
    have h0 : h₁ step = h₂ step := hag step (le_refl _) (by omega)
    have hrest : pipeline_sampling t h₁ (step + 1) n
        = pipeline_sampling t h₂ (step + 1) n :=
      ih (step + 1) (fun i hi1 hi2 => hag i (by omega) (by omega))
    simp only [pipeline_sampling, h0, hrest]

/-- When the cancellation flag stays clear throughout, the sampling
phase returns normally. -/
theorem pipeline_sampling_no_cancel (t : GenerateThread) (h : Nat → Bool) :
    ∀ fuel step, (∀ i, step ≤ i → i < step + fuel → h i = false) →
      (pipeline_sampling t h step fuel).2 = none := by
  intro fuel
  induction fuel with
  | zero => intro step _; rfl
  | succ n ih =>
    intro step hclear
    have h0 : h step = false := hclear step (le_refl _) (by omega)
    have hrest := ih (step + 1) (fun i hi1 hi2 => hclear i (by omega) (by omega))
    simp [pipeline_sampling, GenerateThread.generate_callback, h0, hrest]

/-- A resolvable request type never raises at pipeline selection. -/
theorem resolve_pipeline_type_ok (t : GenerateThread)
    (h : t.type = "txt2img" ∨ t.type = "img2img") :
    ∃ pt, t.resolve_pipeline_type = Except.ok pt := by
  unfold GenerateThread.resolve_pipeline_type
  rcases h with h | h
  · exact ⟨PipelineType.txt2img, by simp [h]⟩
  · by_cases hc : t.req.image_metadata.control_net_model ≠ ""
    · exact ⟨PipelineType.controlNet, by rw [h]; simp [hc]⟩
    · exact ⟨PipelineType.img2img, by rw [h]; simp [hc]⟩

/-- When every attempt fails, the retry loop with `r + 1` iterations left
re-raises the error of its last attempt. -/
theorem retryGo_all_fail {ε α : Type} (es : Nat → ε) :
    ∀ r c, retryGo (α := α) (fun k => Except.error (es k)) c (r + 1)
      = Except.error (es (c + r)) := by
  intro r
  induction r with
  | zero => intro c; simp [retryGo]
  | succ n ih =>
    intro c
    have step1 : retryGo (fun k => Except.error (es k)) c (n + 1 + 1)
        = retryGo (α := α) (fun k => Except.error (es k)) (c + 1) (n + 1) := by
      show (match (Except.error (es c) : Except ε α) with
        | Except.ok r => Except.ok (some r)
        | Except.error er => if n + 1 = 0 then Except.error er
            else retryGo (fun k => Except.error (es k)) (c + 1) (n + 1))
        = retryGo (fun k => Except.error (es k)) (c + 1) (n + 1)
      simp
    rw [step1, ih (c + 1)]
    have h2 : c + 1 + n = c + (n + 1) := by omega
    rw [h2]

/-! ### Claims -/

/-- C5: the precomputed total step count for a run equals the sampling
step count for the request plus `image_count × (1 + upscale_enabled +
face_enabled)`. -/
theorem C5_total_steps_formula (t : GenerateThread) :
    t.compute_total_steps =
      t.compute_pipeline_steps +
        (t.req.num_images_per_prompt : Int) *
          (1 + (t.req.image_metadata.upscale_enabled.toNat : Int)
             + (t.req.image_metadata.face_enabled.toNat : Int)) := by
  unfold GenerateThread.compute_total_steps
  cases hu : t.req.image_metadata.upscale_enabled <;>
    cases hf : t.req.image_metadata.face_enabled <;> simp [hu, hf]

/-- C6: with the default budget of 10 retries, an operation failing three
times and then succeeding makes `retry_on_failure` return the success
result; an operation failing on every one of `max_retries ≥ 1` attempts
makes it propagate the exception of the final attempt. -/
theorem C6_retry_semantics :
    (∀ (ε α : Type) (es : Nat → ε) (a : α),
      retry_on_failure (fun k => if k < 3 then Except.error (es k) else Except.ok a) 10
        = Except.ok (some a)) ∧
    (∀ (ε α : Type) (mr : Nat), 1 ≤ mr → ∀ es : Nat → ε,
      retry_on_failure (α := α) (fun k => Except.error (es k)) (mr : Int)
        = Except.error (es (mr - 1))) := by
  constructor
  · intro ε α es a
    rfl
  · intro ε α mr hmr es
    obtain ⟨r, rfl⟩ : ∃ r, mr = r + 1 := ⟨mr - 1, by omega⟩
    unfold retry_on_failure
    rw [Int.toNat_natCast, retryGo_all_fail es r 0]
    have h2 : 0 + r = r + 1 - 1 := by omega
    rw [h2]

/-- Witness for C6: an operation failing on attempts 0–2 and returning 42
on attempt 3 yields `some 42`; an always-failing operation under a budget
of two attempts propagates the second attempt's error. -/
theorem C6_retry_semantics_witness :
    (retry_on_failure (fun k => if k < 3 then Except.error k else Except.ok 42) 10
        = Except.ok (some (42 : Nat))) ∧
    (1 ≤ 2 ∧ retry_on_failure (α := Nat) (fun k => Except.error (k + 1)) ((2 : Nat) : Int)
        = Except.error 2) :=
  ⟨C6_retry_semantics.1 Nat Nat (fun k => k) 42,
   ⟨by decide, C6_retry_semantics.2 Nat Nat 2 (by decide) (fun k => k + 1)⟩⟩

/-- C10: a non-positive retry budget makes `retry_on_failure` return
Python's implicit `None` without ever invoking the operation — the result
does not depend on the operation at all. -/
theorem C10_retry_nonpositive_budget {ε α : Type} (mr : Int) (h : mr ≤ 0)
    (op₁ op₂ : Nat → Except ε α) :
    retry_on_failure op₁ mr = Except.ok none ∧
    retry_on_failure op₁ mr = retry_on_failure op₂ mr := by
  unfold retry_on_failure
  rw [Int.toNat_of_nonpos h]
  exact ⟨rfl, rfl⟩

/-- Witness for C10: a zero budget returns `none` even for an operation
that would succeed immediately. -/
theorem C10_retry_nonpositive_budget_witness :
    ((0 : Int) ≤ 0) ∧
    retry_on_failure (fun k => (Except.ok k : Except Nat Nat)) 0 = Except.ok none :=
  ⟨by decide,
   (C10_retry_nonpositive_budget 0 (by decide)
     (fun k => Except.ok k) (fun k => Except.error k)).1⟩

/-- Counterexample to C7 as stated: the claim's pattern `<digits>.png`
(matched in full) yields a different id than the code.  `re.match` only
anchors at the start, so the file name `00099.pngx` is counted by the
code (id 100) but not by the claim's full-match rule (id 1). -/
theorem C7_counterexample :
    ¬ (next_image_id ["00099.pngx"] = next_image_id_spec ["00099.pngx"]) := by
  decide

/-- C7 (amended): the id scan treats `<digits>.png` as an unanchored
pattern anchored only at the start of the file name; on a directory
containing `00001.png`–`00004.png` the writer allocates `00005.png`, and
the allocated name is always the 5-digit-zero-padded next id. -/
theorem C7_next_id_allocation :
    (io_operation "outputs" ["00001.png", "00002.png", "00003.png", "00004.png"]
      = (["00001.png", "00002.png", "00003.png", "00004.png", "00005.png"],
         "outputs/00005.png")) ∧
    next_image_id ["00099.pngx"] = 100 ∧
    (∀ collection dir, (io_operation collection dir).2
      = collection ++ "/" ++ (zero_pad5 (next_image_id dir) ++ ".png")) :=
  ⟨by decide, by decide, fun collection dir => by simp [io_operation]⟩

/-- Counterexample to C4 as stated: with upscaling and face restoration
both disabled the claim allots two progress units per image (one for
sampling-completion, one for the write), but the post-processing loop of
`run_` emits three. -/
theorem C4_counterexample :
    ¬ ((t0.post_loop t0.compute_pipeline_steps [] 1).1.countP isTaskProgress
        = 1 + 0 + 0 + 1) := by
  decide

/-- C4 (amended): after sampling completes, the worker advances progress
by exactly three units per produced image — one after the upscale stage,
one after the face-restoration stage and one after the write — regardless
of whether the upscale or face-restoration stage actually ran. -/
theorem C4_three_units_per_image (t : GenerateThread) (n : Nat) (step : Int)
    (dir : List String) :
    ((t.post_loop step dir n).1.countP isTaskProgress) = 3 * n :=
  post_loop_count_progress t n step dir

/-- C2 (code evaluated at the failing input): a one-step txt2img run of
one image with upscaling and face restoration disabled has
`total_steps = 2`, yet the run emits the progress sequence
50, 100, 150, 200 — non-decreasing, but exceeding 100 because the
post-processing loop advances three units per image while
`compute_total_steps` allotted one. -/
theorem C2_progress_exceeds_total :
    progressAmounts (t0.run (fun _ => false) 1 []).1 = [50, 100, 150, 200] ∧
    List.Pairwise (fun a b => a ≤ b) (progressAmounts (t0.run (fun _ => false) 1 []).1) ∧
    ¬ (∀ a ∈ progressAmounts (t0.run (fun _ => false) 1 []).1, a ≤ 100) := by
  have h : progressAmounts (t0.run (fun _ => false) 1 []).1 = [50, 100, 150, 200] := by
    simp [progressAmounts, GenerateThread.run, GenerateThread.run_, t0, md0,
      GenerateThread.resolve_pipeline_type, pipeline_sampling,
      GenerateThread.generate_callback, GenerateThread.update_task_progress,
      GenerateThread.post_loop, io_operation, GenerateThread.compute_total_steps,
      GenerateThread.compute_pipeline_steps]
    norm_num
  refine ⟨h, ?_, ?_⟩
  · rw [h]; decide
  · rw [h]; decide

/-- Counterexample to C3 as stated: on a request type that is neither
`txt2img` nor `img2img`, `run_` raises `UnboundLocalError` — the code
defines no `ConfigurationError` and the two are distinct outcomes. -/
theorem C3_counterexample :
    tBad.run_ (fun _ => false) 0 [] = ([], [], some Err.unboundLocal) ∧
    Err.unboundLocal ≠ Err.configurationError := by
  exact ⟨by decide, by decide⟩

/-- C3 (amended): a request whose type cannot be resolved to a pipeline
makes `run_` raise `UnboundLocalError` (not a dedicated
`ConfigurationError`, which the code never defines) before any event is
emitted or file written; `run` catches it and still emits only the
terminal completion event, leaving the directory untouched. -/
theorem C3_unresolvable_type_raises (t : GenerateThread) (cancelAt : Nat → Bool)
    (samplingSteps : Nat) (dir : List String)
    (h1 : t.type ≠ "txt2img") (h2 : t.type ≠ "img2img") :
    t.run_ cancelAt samplingSteps dir = ([], dir, some Err.unboundLocal) ∧
    t.run cancelAt samplingSteps dir = ([Event.taskComplete], dir) := by
  have hres : t.resolve_pipeline_type = Except.error Err.unboundLocal := by
    unfold GenerateThread.resolve_pipeline_type
    rw [if_neg h1, if_neg h2]
  have h3 : t.run_ cancelAt samplingSteps dir = ([], dir, some Err.unboundLocal) := by
    unfold GenerateThread.run_
    rw [hres]
  refine ⟨h3, ?_⟩
  unfold GenerateThread.run
  rw [h3]
  rfl

/-- Witness for C3 (amended), at a worker whose request type is
`inpaint`. -/
theorem C3_unresolvable_type_raises_witness :
    (tBad.type ≠ "txt2img" ∧ tBad.type ≠ "img2img") ∧
    tBad.run (fun _ => true) 5 ["a.png"] = ([Event.taskComplete], ["a.png"]) :=
  ⟨⟨by decide, by decide⟩,
   (C3_unresolvable_type_raises tBad (fun _ => true) 5 ["a.png"]
     (by decide) (by decide)).2⟩

/-- C1: whatever the request, the cancellation history, the number of
sampling steps the external pipeline performs and the directory contents
— whether `run_` returns normally, aborts on the cancellation signal or
raises any other exception — `run` emits the terminal `task_complete`
event exactly once. -/
theorem C1_task_complete_exactly_once (t : GenerateThread) (cancelAt : Nat → Bool)
    (samplingSteps : Nat) (dir : List String) :
    ((t.run cancelAt samplingSteps dir).1.countP isTaskComplete) = 1 := by
  unfold GenerateThread.run GenerateThread.run_
  rcases hres : t.resolve_pipeline_type with e | pt
  · simp [isTaskComplete]
  · rcases hs : pipeline_sampling t cancelAt 0 samplingSteps with ⟨evs, err⟩
    have hevs : evs.countP isTaskComplete = 0 := by
      have h := pipeline_sampling_countP t cancelAt isTaskComplete
        (fun a => rfl) rfl samplingSteps 0
      rw [hs] at h
      exact h
    cases err with
    | some e =>
      simp [hevs, List.countP_append, isTaskComplete]
    | none =>
      rcases hp : t.post_loop t.compute_pipeline_steps dir
          t.req.num_images_per_prompt with ⟨evs2, dir2⟩
      have hevs2 : evs2.countP isTaskComplete = 0 := by
        have h := post_loop_countP t isTaskComplete false (fun a => rfl)
          (fun path => rfl) t.req.num_images_per_prompt
          t.compute_pipeline_steps dir
        rw [hp] at h
        simpa using h
      simp [hevs, hevs2, List.countP_append, isTaskComplete]

/-- C8: if the cancellation flag is already set when the first
sampling-step callback fires, the run writes no file (the directory is
returned unchanged) and the trace is exactly the terminal completion
event. -/
theorem C8_cancel_before_first_callback (t : GenerateThread) (cancelAt : Nat → Bool)
    (samplingSteps : Nat) (dir : List String)
    (hc : cancelAt 0 = true) (hs : 1 ≤ samplingSteps) :
    t.run cancelAt samplingSteps dir = ([Event.taskComplete], dir) := by
  obtain ⟨f, rfl⟩ : ∃ f, samplingSteps = f + 1 := ⟨samplingSteps - 1, by omega⟩
  have hsamp : pipeline_sampling t cancelAt 0 (f + 1) = ([], some Err.cancelThread) := by
    simp [pipeline_sampling, GenerateThread.generate_callback, hc]
  unfold GenerateThread.run GenerateThread.run_
  rcases hres : t.resolve_pipeline_type with e | pt
  · rfl
  · rw [hsamp]
    rfl

/-- Witness for C8: the worker `t0` cancelled from the start over an
empty directory completes with the bare terminal event and no file. -/
theorem C8_cancel_before_first_callback_witness :
    ((fun _ : Nat => true) 0 = true ∧ 1 ≤ 1) ∧
    t0.run (fun _ => true) 1 [] = ([Event.taskComplete], []) :=
  ⟨⟨rfl, by decide⟩,
   C8_cancel_before_first_callback t0 (fun _ => true) 1 [] rfl (by decide)⟩

/-- C9: the cancellation flag is consulted only inside the sampling-step
callback — two flag histories agreeing on the performed sampling steps
give identical runs, so setting the flag after sampling has returned has
no effect — and a run of a resolvable type that was never cancelled
during sampling still writes and announces every one of its images. -/
theorem C9_cancel_only_at_callbacks (t : GenerateThread) (h₁ h₂ : Nat → Bool)
    (samplingSteps : Nat) (dir : List String)
    (hagree : ∀ i, i < samplingSteps → h₁ i = h₂ i) :
    t.run_ h₁ samplingSteps dir = t.run_ h₂ samplingSteps dir ∧
    ((t.type = "txt2img" ∨ t.type = "img2img") →
      (∀ i, i < samplingSteps → h₁ i = false) →
      ((t.run_ h₁ samplingSteps dir).1.countP isImageComplete
          = t.req.num_images_per_prompt ∧
       (t.run_ h₁ samplingSteps dir).2.1.length
          = dir.length + t.req.num_images_per_prompt)) := by
  have hcong : pipeline_sampling t h₁ 0 samplingSteps
      = pipeline_sampling t h₂ 0 samplingSteps :=
    pipeline_sampling_congr t h₁ h₂ samplingSteps 0
      (fun i hi1 hi2 => hagree i (by omega))
  constructor
  · unfold GenerateThread.run_
    rw [hcong]
  · intro htype hclear
    obtain ⟨pt, hres⟩ := resolve_pipeline_type_ok t htype
    have hnone : (pipeline_sampling t h₁ 0 samplingSteps).2 = none :=
      pipeline_sampling_no_cancel t h₁ samplingSteps 0
        (fun i hi1 hi2 => hclear i (by omega))
    rcases hsamp : pipeline_sampling t h₁ 0 samplingSteps with ⟨evs, err⟩
    rw [hsamp] at hnone
    have herr : err = none := hnone
    subst herr
    have hevs : evs.countP isImageComplete = 0 := by
      have h := pipeline_sampling_countP t h₁ isImageComplete
        (fun a => rfl) rfl samplingSteps 0
      rw [hsamp] at h
      exact h
    rcases hp : t.post_loop t.compute_pipeline_steps dir
        t.req.num_images_per_prompt with ⟨evs2, dir2⟩
    have hevs2 : evs2.countP isImageComplete = t.req.num_images_per_prompt := by
      have h := post_loop_countP t isImageComplete true (fun a => rfl)
        (fun path => rfl) t.req.num_images_per_prompt
        t.compute_pipeline_steps dir
      rw [hp] at h
      simpa using h
    have hlen : dir2.length
        = dir.length + t.req.num_images_per_prompt := by
      have h := post_loop_dir_length t t.req.num_images_per_prompt
        t.compute_pipeline_steps dir
      rw [hp] at h
      exact h
    unfold GenerateThread.run_
    rw [hres, hsamp, hp]
    simp [List.countP_append, hevs, hevs2, hlen]

/-- Witness for C9: `t0` with a never-set flag over one sampling step
announces its single image and writes one file. -/
theorem C9_cancel_only_at_callbacks_witness :
    ((t0.run_ (fun _ => false) 1 []).1.countP isImageComplete = 1 ∧
     (t0.run_ (fun _ => false) 1 []).2.1.length = 1) := by
  have h := (C9_cancel_only_at_callbacks t0 (fun _ => false) (fun _ => false) 1 []
    (fun i _ => rfl)).2 (Or.inl rfl) (fun i _ => rfl)
  simpa using h

end SeedAlchemy
